import Mathlib

/-!
Shallow embedding of `Telegram/SourceFiles/calls/calls_group_panel.cpp`:
the invite-reconciliation controller, the invite outcome presentation,
the title placement algorithm, the weak-reference guarded callbacks and
the mute-button click handler. C++ `int` values are modelled as `Int`;
`base::flat_set` as `Finset`; the truncating C++ integer division as
`Int.tdiv`.
-/

set_option autoImplicit false

namespace GroupPanel

/-- Model of `UserData`: identity plus the attributes the panel reads. -/
structure UserData where
  uid : Nat
  isSelf : Bool
  isBot : Bool
  firstName : String
deriving DecidableEq, Repr

/-- Model of `ChannelData`: the member count and the session self user
(`channel->session().user()`). -/
structure ChannelData where
  membersCount : Int
  selfUser : UserData
deriving DecidableEq, Repr

/-- Model of a peer (`PeerData`): a user, or some non-user peer kind. -/
inductive PeerData where
  | user (u : UserData)
  | chat (cid : Nat)
  | channel (ch : ChannelData)
deriving DecidableEq, Repr

/-- Model of `peer->isUser()`. -/
def PeerData.isUser : PeerData → Bool
  | .user _ => true
  | _ => false

/-- Model of `peer->isSelf()`. -/
def PeerData.isSelf : PeerData → Bool
  | .user u => u.isSelf
  | _ => false

/-- Model of `peer->asUser()`: the user, when the peer is one. -/
def PeerData.asUser : PeerData → Option UserData
  | .user u => some u
  | _ => none

/-- Row disabled state, from `PeerListRow::State`: the controller either
leaves a row in its default enabled, unchecked state or marks it
`DisabledChecked`. -/
inductive RowDisabledState where
  | Enabled
  | DisabledChecked
deriving DecidableEq, Repr

/-- Model of a `PeerListRow` produced by `InviteController::createRow`. -/
structure PeerListRow where
  user : UserData
  state : RowDisabledState
deriving DecidableEq, Repr

/-- State of an `InviteController`: the const construction data plus the
mutable `_skippedUsers` set. -/
structure InviteController where
  channel : ChannelData
  alreadyIn : Finset UserData
  fullInCount : Int
  skippedUsers : Finset UserData
deriving DecidableEq

/-- The `InviteController` constructor: stores the channel and the
already-in set, clamps `_fullInCount` to
`std::max(fullInCount, int(_alreadyIn.size()))`, and seeds
`_skippedUsers` with the session self user. -/
def mkInviteController (channel : ChannelData) (alreadyIn : Finset UserData)
    (fullInCount : Int) : InviteController :=
  { channel := channel
    alreadyIn := alreadyIn
    fullInCount := max fullInCount (alreadyIn.card : Int)
    skippedUsers := {channel.selfUser} }

/-- A controller later in its lifetime: the const fields still come from
the constructor while the mutable skipped set has become `S`. -/
def controllerWithSkipped (channel : ChannelData) (alreadyIn : Finset UserData)
    (fullInCount : Int) (S : Finset UserData) : InviteController :=
  { mkInviteController channel alreadyIn fullInCount with skippedUsers := S }

/-- Model of `InviteController::alreadyInCount`:
`std::max(_fullInCount, int(_alreadyIn.size()))`. -/
def InviteController.alreadyInCount (c : InviteController) : Int :=
  max c.fullInCount (c.alreadyIn.card : Int)

/-- Model of `InviteController::isAlreadyIn`. -/
def InviteController.isAlreadyIn (c : InviteController) (user : UserData) : Bool :=
  user ∈ c.alreadyIn

/-- Model of `InviteController::fullCount`: `alreadyInCount()` plus the
delegate selected-rows count, which is an input here. -/
def InviteController.fullCount (c : InviteController) (selectedRowsCount : Int) : Int :=
  c.alreadyInCount + selectedRowsCount

/-- The local `inOrInvited` of `InviteController::updateTitle`:
`fullCount() - 1` (minus self). -/
def InviteController.inOrInvited (c : InviteController) (selectedRowsCount : Int) : Int :=
  c.fullCount selectedRowsCount - 1

/-- The local `canBeInvited` of `InviteController::updateTitle`:
`std::max` of the delegate full-rows count, the channel member count
minus the skipped-set size, and `inOrInvited`. -/
def InviteController.canBeInvited (c : InviteController)
    (selectedRowsCount fullRowsCount : Int) : Int :=
  max fullRowsCount
    (max (c.channel.membersCount - (c.skippedUsers.card : Int))
      (c.inOrInvited selectedRowsCount))

/-- Model of `qsl("%1 / %2").arg(inOrInvited).arg(canBeInvited)`. -/
def counterString (i cb : Int) : String := s!"{i} / {cb}"

/-- Translated title of the invite box, `tr::lng_group_call_invite_title`. -/
def lngGroupCallInviteTitle : String := "Invite members"

/-- The two strings `InviteController::updateTitle` pushes to the
delegate: the box title and the additional counter text. -/
structure TitleTexts where
  title : String
  additional : String
deriving DecidableEq, Repr

/-- Model of `InviteController::updateTitle`: computes `inOrInvited` and
`canBeInvited`, renders the counter when `canBeInvited` is truthy
(nonzero as a C++ `int`), and sets the box titles. -/
def InviteController.updateTitle (c : InviteController)
    (selectedRowsCount fullRowsCount : Int) : TitleTexts :=
  let i := c.inOrInvited selectedRowsCount
  let cb := c.canBeInvited selectedRowsCount fullRowsCount
  { title := lngGroupCallInviteTitle
    additional := if cb ≠ 0 then counterString i cb else "" }

/-- Result of one `InviteController::createRow` call: the returned row
(if any), the controller state after the call (only `_skippedUsers` is
mutable), and whether `updateTitle` fired. -/
structure CreateRowResult where
  row : Option PeerListRow
  controller : InviteController
  refreshedTitle : Bool
deriving DecidableEq

/-- Model of `InviteController::createRow`: self and bot users produce no
row and are inserted into `_skippedUsers`, with `updateTitle` fired only
when the insertion actually happened (`emplace(...).second`); any other
user gets a row, marked `DisabledChecked` exactly when already in. -/
def InviteController.createRow (c : InviteController) (user : UserData) :
    CreateRowResult :=
  if user.isSelf || user.isBot then
    if user ∈ c.skippedUsers then
      { row := none, controller := c, refreshedTitle := false }
    else
      { row := none
        controller := { c with skippedUsers := insert user c.skippedUsers }
        refreshedTitle := true }
  else
    { row := some { user := user
                    state := if c.isAlreadyIn user then .DisabledChecked else .Enabled }
      controller := c
      refreshedTitle := false }

/-- Presentation state of a candidate user, derived from what
`createRow` does with it. -/
inductive CandidateState where
  | skipped
  | alreadyInDisabled
  | selectable
deriving DecidableEq, Repr

/-- Classify a user by the row `createRow` produces for it: no row means
skipped, a `DisabledChecked` row means already-in, any other row is
selectable. -/
def classifyRow (c : InviteController) (u : UserData) : CandidateState :=
  match (c.createRow u).row with
  | none => .skipped
  | some r => if r.state = .DisabledChecked then .alreadyInDisabled else .selectable

/-- The already-in set built by `GroupPanel::addMembers`: the users
invited to the call, then every participant, then the session self
user. -/
def buildAlreadyIn (invited : Finset UserData) (participants : List UserData)
    (selfUser : UserData) : Finset UserData :=
  insert selfUser (participants.foldl (fun s u => insert u s) invited)

/-- The controller `GroupPanel::addMembers` constructs, from the invited
users, the participant list and the real call full count. -/
def addMembersController (channel : ChannelData) (invited : Finset UserData)
    (participants : List UserData) (fullCount : Int) : InviteController :=
  mkInviteController channel (buildAlreadyIn invited participants channel.selfUser)
    fullCount

/-- The result of `GroupCall::inviteUsers`,
`std::variant<int, not_null<UserData*>>`. -/
inductive InviteOutcome where
  | count (n : Int)
  | single (u : UserData)
deriving DecidableEq, Repr

/-- Extraction of the selected users in
`InviteController::inviteSelectedUsers`: each selected row must be a
user (`Expects(peer->isUser())`) and not self (`Expects(!peer->isSelf())`);
a violated assertion is a fatal error, modelled as `Except.error`. -/
def collectInvitedUsers : List PeerData → Except String (List UserData)
  | [] => .ok []
  | p :: ps =>
    if !p.isUser then .error "Expects failed: peer is not a user"
    else if p.isSelf then .error "Expects failed: peer is self"
    else
      match p.asUser, collectInvitedUsers ps with
      | some u, .ok us => .ok (u :: us)
      | some _, .error e => .error e
      | none, _ => .error "Expects failed: peer is not a user"

/-- Model of `InviteController::inviteSelectedUsers`: collects the
selected rows as users and passes them to the call invite operation,
returning its result unchanged. -/
def inviteSelectedUsers (rows : List PeerData)
    (inviteUsers : List UserData → InviteOutcome) : Except String InviteOutcome :=
  (collectInvitedUsers rows).map inviteUsers

/-- Model of wrapping a string in a bold entity, `Ui::Text::Bold`. -/
def boldEntity (s : String) : String := "**" ++ s ++ "**"

/-- Translated single-user invite toast,
`tr::lng_group_call_invite_done_user` with the `lt_user` substitution. -/
def lngGroupCallInviteDoneUser (userText : String) : String :=
  "You invited " ++ userText ++ " to the voice chat"

/-- Translated pluralized invite toast,
`tr::lng_group_call_invite_done_many` on a count. -/
def lngGroupCallInviteDoneMany (n : Int) : String :=
  s!"You invited {n} members to the voice chat"

/-- A transient toast notification, `Ui::Toast::Config`. -/
structure ToastConfig where
  text : String
deriving DecidableEq, Repr

/-- The toasts shown by the invite-button callback in
`GroupPanel::addMembers` for an invite result: a single user yields one
toast with the bolded first name; a count yields one pluralized toast
only when positive. -/
def showInviteResultToasts : InviteOutcome → List ToastConfig
  | .single u => [{ text := lngGroupCallInviteDoneUser (boldEntity u.firstName) }]
  | .count n => if 0 < n then [{ text := lngGroupCallInviteDoneMany n }] else []

/-- An operation performed on the `GroupCall` object by a UI callback. -/
inductive CallOperation where
  | discard
  | hangup
  | invite (users : List UserData)
deriving DecidableEq, Repr

/-- Observable effects of one deferred UI callback: the call operations
performed, the toasts shown, and whether the box closed. -/
structure ClickEffects where
  callOps : List CallOperation
  toasts : List ToastConfig
  boxClosed : Bool
deriving DecidableEq, Repr

/-- The `GroupCall` collaborator as the invite callback sees it: its
invite operation. A weak reference to it is `Option GroupCall`. -/
structure GroupCall where
  inviteResult : List UserData → InviteOutcome

/-- The confirm-button callback of `LeaveGroupCallBox`: reads the
discard checkbox, closes the box, then, only when the weak call
reference is alive, discards or hangs up. -/
def leaveBoxConfirm (weakCall : Option GroupCall)
    (hasDiscardCheckbox discardChecked : Bool) : ClickEffects :=
  let discardCall := hasDiscardCheckbox && discardChecked
  match weakCall with
  | none => { callOps := [], toasts := [], boxClosed := true }
  | some _ =>
    { callOps := [if discardCall then .discard else .hangup]
      toasts := []
      boxClosed := true }

/-- The invite-button callback built in `GroupPanel::addMembers`: when
the weak call reference is alive it submits the selected rows through
`inviteSelectedUsers` and shows the result toasts; either way the box
closes. Assertion failures propagate as `Except.error`. -/
def inviteButtonClick (weakCall : Option GroupCall) (rows : List PeerData) :
    Except String ClickEffects :=
  match weakCall with
  | none => .ok { callOps := [], toasts := [], boxClosed := true }
  | some call =>
    match collectInvitedUsers rows with
    | .error e => .error e
    | .ok users =>
      .ok { callOps := [.invite users]
            toasts := showInviteResultToasts (call.inviteResult users)
            boxClosed := true }

/-- Group call mute state, `MuteState`. -/
inductive MuteState where
  | Active
  | Muted
  | ForceMuted
deriving DecidableEq, Repr

/-- Mouse buttons, `Qt::MouseButton`, as far as the click filter cares. -/
inductive MouseButton where
  | left
  | right
  | middle
deriving DecidableEq, Repr

/-- The mute-button click handler wired in `GroupPanel::initControls`:
only left clicks pass the `rpl::filter`; then, when the call is alive
and not force-muted, `setMuted` flips `Active` to `Muted` and anything
else to `Active`. The call muted state is `none` when the call is gone. -/
def muteClick (button : MouseButton) (call : Option MuteState) : Option MuteState :=
  if button = .left then
    match call with
    | none => none
    | some m =>
      if m ≠ .ForceMuted then some (if m = .Active then .Muted else .Active)
      else some m
  else call

/-- The reserved title rectangle (`computeTitleRect()`): horizontal
origin and width; the vertical extent is not used by `refreshTitle`. -/
structure TitleRect where
  x : Int
  width : Int
deriving DecidableEq, Repr

/-- The geometry `refreshTitle` gives the title label: its width after
`resizeToWidth` and the `moveToLeft` coordinates. -/
structure TitleGeometry where
  width : Int
  x : Int
  y : Int
deriving DecidableEq, Repr

/-- The placement arithmetic of `GroupPanel::refreshTitle` when a
reserved rectangle exists: `best = naturalWidth`,
`from = (panelWidth - best) / 2` (truncating C++ division),
`top = (membersListTop - titleHeight) / 2`, then the four ordered
cases of the source. -/
def refreshTitleGeometry (panelWidth naturalWidth : Int) (rect : TitleRect)
    (membersListTop titleHeight : Int) : TitleGeometry :=
  let best := naturalWidth
  let fromX := Int.tdiv (panelWidth - best) 2
  let top := Int.tdiv (membersListTop - titleHeight) 2
  let left := rect.x
  if fromX ≥ left ∧ fromX + best ≤ left + rect.width then
    { width := best, x := fromX, y := top }
  else if rect.width < best then
    { width := rect.width, x := left, y := top }
  else if fromX < left then
    { width := best, x := left, y := top }
  else
    { width := best, x := left + rect.width - best, y := top }

/-- Translated window title, `tr::lng_group_call_title`. -/
def lngGroupCallTitle : String := "Voice Chat"

/-- The title-related state of the panel: the custom label (with its
geometry) when it exists, and the native window title text. -/
structure TitleState where
  title : Option TitleGeometry
  windowTitle : String
deriving DecidableEq, Repr

/-- The native title text set by `GroupPanel::initWindow`: a single
space when a reserved title rectangle exists, else the translated
title. -/
def initWindowTitleText (hasTitleRect : Bool) : String :=
  if hasTitleRect then " " else lngGroupCallTitle

/-- Panel title state right after construction: no custom label, native
title as set by `initWindow`. -/
def initTitleState (hasTitleRect : Bool) : TitleState :=
  { title := none, windowTitle := initWindowTitleText hasTitleRect }

/-- The geometry inputs of one layout pass feeding `refreshTitle`. -/
structure LayoutInputs where
  panelWidth : Int
  naturalWidth : Int
  membersListTop : Int
  titleHeight : Int
deriving DecidableEq, Repr

/-- One `GroupPanel::refreshTitle` pass: with a reserved rectangle the
label is created if absent (blanking the native title to a space) and
laid out; without one an existing label is destroyed and the native
title restored to the translated string, and an absent label leaves the
state untouched. -/
def refreshTitleStep (titleRect : Option TitleRect) (inp : LayoutInputs)
    (s : TitleState) : TitleState :=
  match titleRect with
  | some rect =>
    { title := some (refreshTitleGeometry inp.panelWidth inp.naturalWidth rect
        inp.membersListTop inp.titleHeight)
      windowTitle := if s.title.isNone then " " else s.windowTitle }
  | none =>
    match s.title with
    | some _ => { title := none, windowTitle := lngGroupCallTitle }
    | none => s

/-- A sequence of layout passes applied in order. -/
def runLayout (titleRect : Option TitleRect) (inps : List LayoutInputs)
    (s : TitleState) : TitleState :=
  inps.foldl (fun st i => refreshTitleStep titleRect i st) s

/-- Concrete sample users for witnesses. -/
def sampleSelf : UserData := { uid := 0, isSelf := true, isBot := false, firstName := "Me" }

/-- Concrete sample bot user for witnesses. -/
def sampleRobot : UserData := { uid := 1, isSelf := false, isBot := true, firstName := "Robo" }

/-- Concrete sample plain user for witnesses. -/
def sampleAlice : UserData := { uid := 2, isSelf := false, isBot := false, firstName := "Alice" }

/-- Concrete second sample plain user for witnesses. -/
def sampleCarol : UserData := { uid := 3, isSelf := false, isBot := false, firstName := "Carol" }

/-- Concrete sample channel for witnesses. -/
def sampleChannel : ChannelData := { membersCount := 5, selfUser := sampleSelf }

/-- All good rows: every element is a user and not self. -/
theorem collectInvitedUsers_ok :
    ∀ (rows : List PeerData),
      (∀ p ∈ rows, p.isUser = true ∧ p.isSelf = false) →
      collectInvitedUsers rows = .ok (rows.filterMap PeerData.asUser)
  | [], _ => rfl
  | p :: ps, h => by
    obtain ⟨hu, hs⟩ := h p (List.mem_cons_self p ps)
    have ih := collectInvitedUsers_ok ps fun q hq => h q (List.mem_cons_of_mem p hq)
    cases p with
    | user u =>
      have hs' : u.isSelf = false := hs
      simp [collectInvitedUsers, PeerData.isUser, PeerData.isSelf, PeerData.asUser,
        hs', ih, List.filterMap_cons]
    | chat cid => simp [PeerData.isUser] at hu
    | channel ch => simp [PeerData.isUser] at hu

/-- Under the same precondition, extraction keeps one user per row. -/
theorem filterMap_asUser_length :
    ∀ (rows : List PeerData),
      (∀ p ∈ rows, p.isUser = true ∧ p.isSelf = false) →
      (rows.filterMap PeerData.asUser).length = rows.length
  | [], _ => rfl
  | p :: ps, h => by
    obtain ⟨hu, _⟩ := h p (List.mem_cons_self p ps)
    have ih := filterMap_asUser_length ps fun q hq => h q (List.mem_cons_of_mem p hq)
    cases p with
    | user u => simp [PeerData.asUser, List.filterMap_cons, ih]
    | chat cid => simp [PeerData.isUser] at hu
    | channel ch => simp [PeerData.isUser] at hu

/-- Claim C1: `updateTitle` computes `alreadyIn = max(f, |A|)`,
`inOrInvited = alreadyIn + selectedCount - 1`,
`canBeInvited = max(fullRows, membersCount - |S|, inOrInvited)`, and
displays `"inOrInvited / canBeInvited"` exactly when `canBeInvited > 0`;
in particular `alreadyInCount()` equals `max(f, |A|)`. -/
theorem updateTitle_counter_spec (channel : ChannelData) (A S : Finset UserData)
    (f selectedCount fullRows : Int) (hr : 0 ≤ fullRows) :
    (controllerWithSkipped channel A f S).alreadyInCount = max f (A.card : Int) ∧
    (controllerWithSkipped channel A f S).inOrInvited selectedCount
      = max f (A.card : Int) + selectedCount - 1 ∧
    (controllerWithSkipped channel A f S).canBeInvited selectedCount fullRows
      = max fullRows (max (channel.membersCount - (S.card : Int))
          ((controllerWithSkipped channel A f S).inOrInvited selectedCount)) ∧
    ((controllerWithSkipped channel A f S).updateTitle selectedCount fullRows).additional
      = if 0 < (controllerWithSkipped channel A f S).canBeInvited selectedCount fullRows
        then counterString
          ((controllerWithSkipped channel A f S).inOrInvited selectedCount)
          ((controllerWithSkipped channel A f S).canBeInvited selectedCount fullRows)
        else "" := by
  have h1 : (controllerWithSkipped channel A f S).alreadyInCount
      = max f (A.card : Int) := by
    simp only [controllerWithSkipped, mkInviteController, InviteController.alreadyInCount]
    rw [max_assoc, max_self]
  refine ⟨h1, ?_, rfl, ?_⟩
  · simp only [InviteController.inOrInvited, InviteController.fullCount, h1]
  · have hnn : 0 ≤ (controllerWithSkipped channel A f S).canBeInvited
        selectedCount fullRows :=
      le_trans hr (le_max_left _ _)
    by_cases h : (controllerWithSkipped channel A f S).canBeInvited
        selectedCount fullRows = 0
    · simp [InviteController.updateTitle, h]
    · have hpos : 0 < (controllerWithSkipped channel A f S).canBeInvited
          selectedCount fullRows := lt_of_le_of_ne hnn (Ne.symm h)
      simp [InviteController.updateTitle, h, hpos]

/-- Witness for C1 at concrete inputs: two users already in, reported
full count 1, one skipped user, two selected rows, four full rows. -/
theorem updateTitle_counter_spec_witness :
    ((controllerWithSkipped sampleChannel {sampleSelf, sampleAlice} 1
      {sampleSelf}).updateTitle 2 4).additional = "3 / 4" := by
  have h := (updateTitle_counter_spec sampleChannel {sampleSelf, sampleAlice}
    {sampleSelf} 1 2 4 (by decide)).2.2.2
  rw [h]
  decide

/-- Claim C9: the counter denominator dominates its numerator and is
nonnegative, since `canBeInvited` is a max over terms including
`inOrInvited` and the nonnegative full-rows count. -/
theorem canBeInvited_dominates (c : InviteController)
    (selectedCount fullRows : Int) (hr : 0 ≤ fullRows) :
    c.inOrInvited selectedCount ≤ c.canBeInvited selectedCount fullRows ∧
    0 ≤ c.canBeInvited selectedCount fullRows := by
  constructor
  · exact le_max_of_le_right (le_max_right _ _)
  · exact le_trans hr (le_max_left _ _)

/-- Witness for C9 at a concrete controller state. -/
theorem canBeInvited_dominates_witness :
    (mkInviteController sampleChannel {sampleAlice} 0).inOrInvited 1
      ≤ (mkInviteController sampleChannel {sampleAlice} 0).canBeInvited 1 2 ∧
    0 ≤ (mkInviteController sampleChannel {sampleAlice} 0).canBeInvited 1 2 :=
  canBeInvited_dominates (mkInviteController sampleChannel {sampleAlice} 0) 1 2
    (by decide)

/-- Claim C10: a left click leaves the mute state unchanged when the
call is gone or force-muted, sends `Active` to `Muted`, and sends the
remaining state (`Muted`) to `Active`. -/
theorem muteClick_left_spec :
    muteClick .left none = none ∧
    muteClick .left (some .ForceMuted) = some .ForceMuted ∧
    muteClick .left (some .Active) = some .Muted ∧
    muteClick .left (some .Muted) = some .Active := by decide

/-- Claim C4: a single-user outcome yields exactly one toast holding the
bolded first name; a count outcome yields one pluralized toast when
positive and none otherwise (zero or negative). -/
theorem inviteOutcome_toasts_spec (u : UserData) (n : Int) :
    showInviteResultToasts (.single u)
      = [{ text := lngGroupCallInviteDoneUser (boldEntity u.firstName) }] ∧
    showInviteResultToasts (.count n)
      = (if 0 < n then [{ text := lngGroupCallInviteDoneMany n }] else []) ∧
    (showInviteResultToasts (.count n)).length = (if 0 < n then 1 else 0) := by
  refine ⟨rfl, rfl, ?_⟩
  by_cases h : 0 < n <;> simp [showInviteResultToasts, h]

/-- Claim C7: with no reserved rectangle, any sequence of layout passes
from the initial panel state leaves no custom title label and keeps the
native window title equal to the translated group-call title. -/
theorem refreshTitle_no_rect_spec (inps : List LayoutInputs) :
    (runLayout none inps (initTitleState false)).title = none ∧
    (runLayout none inps (initTitleState false)).windowTitle = lngGroupCallTitle := by
  have h : runLayout none inps (initTitleState false) = initTitleState false := by
    induction inps with
    | nil => rfl
    | cons i is ih =>
      have hstep : refreshTitleStep none i (initTitleState false)
          = initTitleState false := rfl
      calc runLayout none (i :: is) (initTitleState false)
          = runLayout none is (refreshTitleStep none i (initTitleState false)) := rfl
        _ = runLayout none is (initTitleState false) := by rw [hstep]
        _ = initTitleState false := ih
  rw [h]
  exact ⟨rfl, rfl⟩

/-- Claim C8: when the weak call reference has expired, both deferred
callbacks perform no call operation: the leave-confirm button only
closes the box, and the invite button only closes the box. -/
theorem expiredCall_noop_spec (hasDiscardCheckbox discardChecked : Bool)
    (rows : List PeerData) :
    leaveBoxConfirm none hasDiscardCheckbox discardChecked
      = { callOps := [], toasts := [], boxClosed := true } ∧
    inviteButtonClick none rows
      = .ok { callOps := [], toasts := [], boxClosed := true } :=
  ⟨rfl, rfl⟩

/-- Claim C2: the title label placement follows the four ordered rules
of `refreshTitle` (centered at natural width when it fits the reserved
rectangle; shrunk to the rectangle width at its left edge when the
rectangle is narrower than the label; else left-anchored or
right-aligned at natural width), and the vertical position is always
`(membersListTop - labelHeight) / 2`. -/
theorem refreshTitle_layout_spec (w b mlt lh : Int) (rect : TitleRect) :
    (Int.tdiv (w - b) 2 ≥ rect.x ∧ Int.tdiv (w - b) 2 + b ≤ rect.x + rect.width →
      refreshTitleGeometry w b rect mlt lh
        = { width := b, x := Int.tdiv (w - b) 2, y := Int.tdiv (mlt - lh) 2 }) ∧
    (¬(Int.tdiv (w - b) 2 ≥ rect.x ∧ Int.tdiv (w - b) 2 + b ≤ rect.x + rect.width) →
      rect.width < b →
      refreshTitleGeometry w b rect mlt lh
        = { width := rect.width, x := rect.x, y := Int.tdiv (mlt - lh) 2 }) ∧
    (¬(Int.tdiv (w - b) 2 ≥ rect.x ∧ Int.tdiv (w - b) 2 + b ≤ rect.x + rect.width) →
      ¬rect.width < b → Int.tdiv (w - b) 2 < rect.x →
      refreshTitleGeometry w b rect mlt lh
        = { width := b, x := rect.x, y := Int.tdiv (mlt - lh) 2 }) ∧
    (¬(Int.tdiv (w - b) 2 ≥ rect.x ∧ Int.tdiv (w - b) 2 + b ≤ rect.x + rect.width) →
      ¬rect.width < b → ¬Int.tdiv (w - b) 2 < rect.x →
      refreshTitleGeometry w b rect mlt lh
        = { width := b, x := rect.x + rect.width - b, y := Int.tdiv (mlt - lh) 2 }) ∧
    (refreshTitleGeometry w b rect mlt lh).y = Int.tdiv (mlt - lh) 2 := by
  refine ⟨?_, ?_, ?_, ?_, ?_⟩
  · intro h1
    simp [refreshTitleGeometry, h1]
  · intro h1 h2
    simp [refreshTitleGeometry, h1, h2]
  · intro h1 h2 h3
    simp [refreshTitleGeometry, h1, h2, h3]
  · intro h1 h2 h3
    simp [refreshTitleGeometry, h1, h2, h3]
  · simp only [refreshTitleGeometry]
    split_ifs <;> rfl

/-- Witness for C2: the concrete instance of the claim,
`panelWidth = 800`, `naturalWidth = 200`, reserved `[0, 150)`: the
centered position 300 does not fit, the rectangle is narrower than the
label, so the label shrinks to width 150 anchored at x = 0. -/
theorem refreshTitle_layout_spec_witness :
    refreshTitleGeometry 800 200 { x := 0, width := 150 } 40 20
      = { width := 150, x := 0, y := 10 } := by
  have h := refreshTitle_layout_spec 800 200 40 20 { x := 0, width := 150 }
  exact (h.2.1 (by decide) (by decide)).trans (by decide)

/-- Claim C3: `createRow` returns no row for self or bot users, putting
them into the skipped set and firing a title refresh only on the first
call (a repeat call changes nothing and fires no refresh); for every
other user it returns a row that is disabled-and-checked exactly when
the user is already in, and an enabled, unchecked row otherwise. -/
theorem createRow_spec (c : InviteController) (u : UserData) :
    ((u.isSelf || u.isBot) = true →
      (c.createRow u).row = none ∧
      (u ∉ c.skippedUsers →
        (c.createRow u).controller.skippedUsers = insert u c.skippedUsers ∧
        (c.createRow u).refreshedTitle = true) ∧
      (u ∈ c.skippedUsers →
        (c.createRow u).controller = c ∧
        (c.createRow u).refreshedTitle = false) ∧
      (c.createRow u).controller.createRow u
        = { row := none
            controller := (c.createRow u).controller
            refreshedTitle := false }) ∧
    ((u.isSelf || u.isBot) = false →
      (c.createRow u).controller = c ∧
      (c.createRow u).refreshedTitle = false ∧
      (c.createRow u).row
        = some { user := u
                 state := if u ∈ c.alreadyIn then .DisabledChecked else .Enabled }) := by
  constructor
  · intro hsb
    by_cases hm : u ∈ c.skippedUsers
    · simp [InviteController.createRow, hsb, hm]
    · simp [InviteController.createRow, hsb, hm]
  · intro hsb
    by_cases hin : u ∈ c.alreadyIn <;>
      simp [InviteController.createRow, InviteController.isAlreadyIn, hsb, hin]

/-- Witness for C3: a bot user produces no row, and a user already in
the set produces a disabled-checked row. -/
theorem createRow_spec_witness :
    ((mkInviteController sampleChannel {sampleAlice} 0).createRow sampleRobot).row
      = none ∧
    ((mkInviteController sampleChannel {sampleAlice} 0).createRow sampleAlice).row
      = some { user := sampleAlice, state := .DisabledChecked } := by
  have h1 := (createRow_spec (mkInviteController sampleChannel {sampleAlice} 0)
    sampleRobot).1 (by decide)
  have h2 := (createRow_spec (mkInviteController sampleChannel {sampleAlice} 0)
    sampleAlice).2 (by decide)
  refine ⟨h1.1, ?_⟩
  rw [h2.2.2]
  decide

/-- Claim C5, counterexample: in the controller that `addMembers`
builds, the session self user is a member of both the already-in set
and the skipped set, refuting the claimed disjointness of the two
sets. -/
theorem alreadyIn_skipped_overlap_counterexample :
    sampleSelf ∈ (addMembersController sampleChannel ∅ [] 0).alreadyIn ∧
    sampleSelf ∈ (addMembersController sampleChannel ∅ [] 0).skippedUsers := by
  decide

/-- Claim C5, amended: every user is presented in exactly one state
among skipped, already-in-disabled and selectable (determined by
whether the user is self or bot and by already-in membership), but the
underlying already-in and skipped sets are not disjoint: any controller
built by `addMembers` holds the session self user in both. -/
theorem candidateState_unique_amended (channel : ChannelData)
    (invited : Finset UserData) (participants : List UserData) (fc : Int)
    (c : InviteController) (u : UserData) :
    channel.selfUser ∈ (addMembersController channel invited participants fc).alreadyIn ∧
    channel.selfUser ∈ (addMembersController channel invited participants fc).skippedUsers ∧
    (classifyRow c u = .skipped ↔ (u.isSelf || u.isBot) = true) ∧
    (classifyRow c u = .alreadyInDisabled ↔
      ((u.isSelf || u.isBot) = false ∧ u ∈ c.alreadyIn)) ∧
    (classifyRow c u = .selectable ↔
      ((u.isSelf || u.isBot) = false ∧ u ∉ c.alreadyIn)) := by
  refine ⟨?_, ?_, ?_, ?_, ?_⟩
  · simp [addMembersController, mkInviteController, buildAlreadyIn]
  · simp [addMembersController, mkInviteController]
  · by_cases hsb : (u.isSelf || u.isBot) = true
    · by_cases hm : u ∈ c.skippedUsers <;>
        simp [classifyRow, InviteController.createRow, hsb, hm]
    · by_cases hin : u ∈ c.alreadyIn <;>
        simp [classifyRow, InviteController.createRow,
          InviteController.isAlreadyIn, hsb, hin]
  · by_cases hsb : (u.isSelf || u.isBot) = true
    · by_cases hm : u ∈ c.skippedUsers <;>
        simp [classifyRow, InviteController.createRow, hsb, hm]
    · by_cases hin : u ∈ c.alreadyIn <;>
        simp [classifyRow, InviteController.createRow,
          InviteController.isAlreadyIn, hsb, hin]
  · by_cases hsb : (u.isSelf || u.isBot) = true
    · by_cases hm : u ∈ c.skippedUsers <;>
        simp [classifyRow, InviteController.createRow, hsb, hm]
    · by_cases hin : u ∈ c.alreadyIn <;>
        simp [classifyRow, InviteController.createRow,
          InviteController.isAlreadyIn, hsb, hin]

/-- Claim C6: when every selected row is a non-self user, the assertion
branches are unreachable and `inviteSelectedUsers` passes exactly the
selected users (one per row) to the call invite operation and returns
its result unchanged. -/
theorem inviteSelectedUsers_spec (rows : List PeerData)
    (inviteUsers : List UserData → InviteOutcome)
    (h : ∀ p ∈ rows, p.isUser = true ∧ p.isSelf = false) :
    inviteSelectedUsers rows inviteUsers
      = .ok (inviteUsers (rows.filterMap PeerData.asUser)) ∧
    (rows.filterMap PeerData.asUser).length = rows.length := by
  refine ⟨?_, filterMap_asUser_length rows h⟩
  unfold inviteSelectedUsers
  rw [collectInvitedUsers_ok rows h]
  rfl

/-- Witness for C6: two selected non-self users are passed through and
the invite result (their count) is returned unchanged. -/
theorem inviteSelectedUsers_spec_witness :
    inviteSelectedUsers [PeerData.user sampleAlice, PeerData.user sampleCarol]
      (fun us => .count (us.length : Int)) = .ok (.count 2) := by
  have h := (inviteSelectedUsers_spec
    [PeerData.user sampleAlice, PeerData.user sampleCarol]
    (fun us => .count (us.length : Int)) (by decide)).1
  rw [h]
  rfl

end GroupPanel
